import Mathlib

/-!
Shallow embedding of the service-pulse repository core:
`src/mastra/tools/api-test-tools.ts` (apiTestTool.execute),
`src/mastra/tools/health-check-tool.ts` (healthCheckTool.execute) and the
Telex A2A route handler.  Times are `Int` milliseconds (JS `Date.now()`
values); HTTP status codes are `Nat`.  The outcome of `fetch` is supplied
as an explicit oracle argument (`FetchOutcome` / `HealthFetchOutcome`),
since the network is outside the program.
-/

namespace ServicePulse

/-- HTTP methods accepted by the api-test tool input schema. -/
inductive Method
  | GET | POST | PUT | DELETE | PATCH
deriving DecidableEq, Repr

/-- String form of a method, as used in the cache key template string. -/
def Method.toStr : Method → String
  | .GET => "GET"
  | .POST => "POST"
  | .PUT => "PUT"
  | .DELETE => "DELETE"
  | .PATCH => "PATCH"

/-- Test outcome of the api-test tool (`'PASS' | 'FAIL'`). -/
inductive TestStatus
  | PASS | FAIL
deriving DecidableEq, Repr

/-- Expected response content type (`z.enum(['json','text','html','xml'])`). -/
inductive RespType
  | json | text | html | xml
deriving DecidableEq, Repr

/-- The `expectations` object of the api-test input schema.  `bodySchema`
is accepted by the schema but never read by `execute`, so it is omitted.
`statusCodeRange` is an array of exactly two numbers, modelled as a pair. -/
structure Expectations where
  statusCode : Option Nat
  statusCodeRange : Option (Nat × Nat)
  maxResponseTime : Option Int
  bodyContains : Option (List String)
  bodyNotContains : Option (List String)
  requiredHeaders : Option (List String)
  responseType : Option RespType
deriving DecidableEq, Repr

/-- An Expectations record with no rule declared. -/
def Expectations.none : Expectations :=
  { statusCode := Option.none, statusCodeRange := Option.none,
    maxResponseTime := Option.none, bodyContains := Option.none,
    bodyNotContains := Option.none, requiredHeaders := Option.none,
    responseType := Option.none }

/-- JS `haystack.includes(needle)` on strings: substring test. -/
def strIncludes (haystack needle : String) : Bool :=
  decide (List.IsInfix needle.data haystack.data)

/-- JS `Response.ok`: HTTP status in 200-299. -/
def respOk (status : Nat) : Bool :=
  decide (200 ≤ status ∧ status ≤ 299)

/-- A successful `fetch` response as the execute code reads it.
`headers` carries the response header pairs with the lower-cased names that
the `Headers` object exposes.  `captureOk` tells whether reading the body
(`response.json()` re-stringified, or `response.text()`) succeeded;
`bodyText` is the string that a successful capture produced. -/
structure HttpResponse where
  status : Nat
  statusText : String
  contentType : String
  headers : List (String × String)
  captureOk : Bool
  bodyText : String
deriving DecidableEq, Repr

/-- Body capture (`try { ... } catch (e) { responseBody = '[Unable to parse
response body]' }`): the capture always yields a string; a parse failure
substitutes the placeholder text. -/
def captureBody (resp : HttpResponse) : String :=
  if resp.captureOk then resp.bodyText else "[Unable to parse response body]"

/-- `response.headers.has(name)` with a lower-cased `name` argument:
presence among the (lower-cased) stored header names. -/
def headersHas (headers : List (String × String)) (name : String) : Bool :=
  headers.any (fun p => p.1 = name)

/-- The `validations.statusCode` slot stores either an exact expectation or
a range expectation (the code writes `expected: statusCode` or
`expected: min-max` into the same slot). -/
inductive StatusCodeExpected
  | exact (n : Nat)
  | range (lo hi : Nat)
deriving DecidableEq, Repr

structure StatusCodeValidation where
  expected : StatusCodeExpected
  actual : Nat
  passed : Bool
deriving DecidableEq, Repr

structure ResponseTimeValidation where
  maxAllowed : Int
  actual : Int
  passed : Bool
deriving DecidableEq, Repr

structure ResponseTypeValidation where
  expected : RespType
  actual : RespType
  passed : Bool
deriving DecidableEq, Repr

/-- The `validations` object assembled by the execute code. -/
structure Validations where
  statusCode : Option StatusCodeValidation
  responseTime : Option ResponseTimeValidation
  bodyContains : Option (List (String × Bool))
  bodyNotContains : Option (List (String × Bool))
  headers : Option (List (String × Bool))
  responseType : Option ResponseTypeValidation
deriving DecidableEq, Repr

def Validations.empty : Validations :=
  { statusCode := Option.none, responseTime := Option.none,
    bodyContains := Option.none, bodyNotContains := Option.none,
    headers := Option.none, responseType := Option.none }

/-- Accumulator threaded through the sequential validation blocks:
the `validations` object plus the `totalChecks` / `passedChecks` counters. -/
structure VAcc where
  v : Validations
  total : Nat
  passed : Nat
deriving DecidableEq, Repr

/-- `if (expectations.statusCode !== undefined) { totalChecks++; ... }`. -/
def stageStatusCode (sc : Option Nat) (status : Nat) (acc : VAcc) : VAcc :=
  match sc with
  | some expected =>
      let passed := status == expected
      let entry : StatusCodeValidation := { expected := .exact expected, actual := status, passed := passed }
      { v := { acc.v with statusCode := some entry },
        total := acc.total + 1,
        passed := acc.passed + (if passed then 1 else 0) }
  | none => acc

/-- `if (expectations.statusCodeRange) { ... }` — note this writes the same
`validations.statusCode` slot as the exact check, overwriting it. -/
def stageStatusCodeRange (r : Option (Nat × Nat)) (status : Nat) (acc : VAcc) : VAcc :=
  match r with
  | some (lo, hi) =>
      let passed := decide (lo ≤ status ∧ status ≤ hi)
      let entry : StatusCodeValidation := { expected := .range lo hi, actual := status, passed := passed }
      { v := { acc.v with statusCode := some entry },
        total := acc.total + 1,
        passed := acc.passed + (if passed then 1 else 0) }
  | none => acc

/-- `if (expectations.maxResponseTime !== undefined) { ... }`. -/
def stageResponseTime (m : Option Int) (responseTime : Int) (acc : VAcc) : VAcc :=
  match m with
  | some maxAllowed =>
      let passed := decide (responseTime ≤ maxAllowed)
      let entry : ResponseTimeValidation := { maxAllowed := maxAllowed, actual := responseTime, passed := passed }
      { v := { acc.v with responseTime := some entry },
        total := acc.total + 1,
        passed := acc.passed + (if passed then 1 else 0) }
  | none => acc

/-- `if (expectations.bodyContains && responseBody) { ... }` — the guard
tests JS truthiness of `responseBody`, i.e. the string is non-empty; a
declared list (even an empty array) is always truthy. -/
def stageBodyContains (bc : Option (List String)) (responseBody : String) (acc : VAcc) : VAcc :=
  match bc with
  | some texts =>
      if responseBody = "" then acc
      else
        let outcomes := texts.map (fun text => (text, strIncludes responseBody text))
        { v := { acc.v with bodyContains := some outcomes },
          total := acc.total + texts.length,
          passed := acc.passed + (texts.filter (fun text => strIncludes responseBody text)).length }
  | none => acc

/-- `if (expectations.bodyNotContains && responseBody) { ... }`. -/
def stageBodyNotContains (bnc : Option (List String)) (responseBody : String) (acc : VAcc) : VAcc :=
  match bnc with
  | some texts =>
      if responseBody = "" then acc
      else
        let outcomes := texts.map (fun text => (text, !strIncludes responseBody text))
        { v := { acc.v with bodyNotContains := some outcomes },
          total := acc.total + texts.length,
          passed := acc.passed + (texts.filter (fun text => !strIncludes responseBody text)).length }
  | none => acc

/-- `if (expectations.requiredHeaders) { ... }` with
`response.headers.has(header.toLowerCase())`. -/
def stageRequiredHeaders (rh : Option (List String)) (headers : List (String × String))
    (acc : VAcc) : VAcc :=
  match rh with
  | some names =>
      let outcomes := names.map (fun header => (header, headersHas headers header.toLower))
      { v := { acc.v with headers := some outcomes },
        total := acc.total + names.length,
        passed := acc.passed + (names.filter (fun header => headersHas headers header.toLower)).length }
  | none => acc

/-- Content-type inference: `json` if the content-type contains "json",
else `html`, else `xml`, else `text` (priority order of the code). -/
def inferRespType (contentType : String) : RespType :=
  if strIncludes contentType "json" then .json
  else if strIncludes contentType "html" then .html
  else if strIncludes contentType "xml" then .xml
  else .text

/-- `if (expectations.responseType) { ... }`. -/
def stageResponseType (rt : Option RespType) (contentType : String) (acc : VAcc) : VAcc :=
  match rt with
  | some expected =>
      let actualType := inferRespType contentType
      let passed := actualType == expected
      let entry : ResponseTypeValidation := { expected := expected, actual := actualType, passed := passed }
      { v := { acc.v with responseType := some entry },
        total := acc.total + 1,
        passed := acc.passed + (if passed then 1 else 0) }
  | none => acc

/-- The validation block of `apiTestTool.execute` (`if (expectations) { ... }`):
the seven rule blocks applied in source order to the zeroed accumulator. -/
def runValidations (expectations : Option Expectations) (status : Nat)
    (headers : List (String × String)) (contentType : String)
    (responseTime : Int) (responseBody : String) : VAcc :=
  match expectations with
  | some exps =>
      (stageResponseType exps.responseType contentType
        (stageRequiredHeaders exps.requiredHeaders headers
          (stageBodyNotContains exps.bodyNotContains responseBody
            (stageBodyContains exps.bodyContains responseBody
              (stageResponseTime exps.maxResponseTime responseTime
                (stageStatusCodeRange exps.statusCodeRange status
                  (stageStatusCode exps.statusCode status
                    { v := Validations.empty, total := 0, passed := 0 })))))))
  | none => { v := Validations.empty, total := 0, passed := 0 }

/-! ### The api-test executor with its module-level cache -/

/-- `JSON.stringify` on a string value: double quotes around the text with
`"` and `\` (and the common control characters) escaped. -/
def jsonEscapeChar (c : Char) : String :=
  if c = '\\' then "\\\\"
  else if c = '"' then "\\\""
  else if c = '\n' then "\\n"
  else if c = '\r' then "\\r"
  else if c = '\t' then "\\t"
  else String.singleton c

def jsonStringifyStr (s : String) : String :=
  "\"" ++ String.join (s.data.map jsonEscapeChar) ++ "\""

/-- `JSON.stringify(body || {})`: an absent or empty (falsy) body serializes
as the empty object, a non-empty body string as its JSON string literal. -/
def serializeBody (body : Option String) : String :=
  match body with
  | some s => if s = "" then "{}" else jsonStringifyStr s
  | none => "{}"

/-- The input context of `apiTestTool.execute` (after zod defaults). -/
structure TestContext where
  url : String
  method : Method
  headers : Option (List (String × String))
  body : Option String
  expectations : Option Expectations
  cacheTTL : Int
  timeout : Int
deriving DecidableEq, Repr

/-- The cache key template string `${method}:${url}:${JSON.stringify(body || {})}`. -/
def cacheKey (ctx : TestContext) : String :=
  ctx.method.toStr ++ ":" ++ ctx.url ++ ":" ++ serializeBody ctx.body

structure RequestSnapshot where
  method : Method
  url : String
  headers : Option (List (String × String))
deriving DecidableEq, Repr

structure ResponseSnapshot where
  statusCode : Nat
  statusText : String
  headers : List (String × String)
  body : Option String
  responseTime : Int
deriving DecidableEq, Repr

/-- The result object returned by `apiTestTool.execute`.  The ISO timestamp
string is modelled by the millisecond value `now` it is built from.  On the
catch path `response` and `validations` are absent and `error` is set. -/
structure TestResult where
  testStatus : TestStatus
  cached : Bool
  timestamp : Int
  request : RequestSnapshot
  response : Option ResponseSnapshot
  validations : Option Validations
  totalChecks : Nat
  passedChecks : Nat
  failedChecks : Nat
  error : Option String
deriving DecidableEq, Repr

/-- An entry of the module-level `testCache` map. -/
structure CacheEntry where
  status : TestStatus
  timestamp : Int
  responseTime : Int
  result : TestResult
deriving DecidableEq, Repr

/-- The module-level `testCache : Map<string, CacheEntry>`. -/
def TestCache : Type := String → Option CacheEntry

/-- The empty cache (fresh module state). -/
def TestCache.empty : TestCache := fun _ => Option.none

/-- `testCache.set(key, entry)`: overwrite unconditionally. -/
def TestCache.set (c : TestCache) (key : String) (entry : CacheEntry) : TestCache :=
  fun k => if k = key then some entry else c k

/-- Outcome of the `fetch` call in `apiTestTool.execute`: a response (with
the measured `endTime - startTime` latency) or a thrown error with its
`message`. -/
inductive FetchOutcome
  | success (resp : HttpResponse) (responseTime : Int)
  | failure (msg : String)
deriving DecidableEq, Repr

/-- The cache-hit test of `apiTestTool.execute`: `cacheAge = cached ? now -
cached.timestamp : Infinity; isCacheFresh = cacheAge < cacheTTL; if
(isCacheFresh && cached)` — with no entry the age is Infinity and the test
fails. -/
def isTestCacheHit (cache : TestCache) (ctx : TestContext) (now : Int) : Bool :=
  match cache (cacheKey ctx) with
  | some entry => decide (now - entry.timestamp < ctx.cacheTTL)
  | none => false

/-- The miss path of `apiTestTool.execute` (everything after the cache
check): perform the fetch, validate, assemble the result and write it
through to the cache.  Returns the result, the new cache state, and `true`
to record that an outbound network request happened. -/
def apiTestMiss (cache : TestCache) (ctx : TestContext) (now : Int)
    (outcome : FetchOutcome) : TestResult × TestCache × Bool :=
  let key := cacheKey ctx
  match outcome with
  | .success resp responseTime =>
      let responseBody := captureBody resp
      let acc := runValidations ctx.expectations resp.status resp.headers resp.contentType responseTime responseBody
      -- if (totalChecks === 0) { totalChecks = 1; passedChecks = response.ok ? 1 : 0 }
      let totalChecks := if acc.total = 0 then 1 else acc.total
      let passedChecks := if acc.total = 0 then (if respOk resp.status then 1 else 0) else acc.passed
      let testStatus := if passedChecks = totalChecks then TestStatus.PASS else TestStatus.FAIL
      let responseSnap : ResponseSnapshot :=
        { statusCode := resp.status, statusText := resp.statusText,
          headers := resp.headers, body := some responseBody, responseTime := responseTime }
      let result : TestResult :=
        { testStatus := testStatus, cached := false, timestamp := now,
          request := { method := ctx.method, url := ctx.url, headers := ctx.headers },
          response := some responseSnap, validations := some acc.v,
          totalChecks := totalChecks, passedChecks := passedChecks,
          failedChecks := totalChecks - passedChecks, error := Option.none }
      let entry : CacheEntry :=
        { status := testStatus, timestamp := now, responseTime := responseTime, result := result }
      (result, cache.set key entry, true)
  | .failure msg =>
      let result : TestResult :=
        { testStatus := TestStatus.FAIL, cached := false, timestamp := now,
          request := { method := ctx.method, url := ctx.url, headers := ctx.headers },
          response := Option.none, validations := Option.none,
          totalChecks := 1, passedChecks := 0, failedChecks := 1, error := some msg }
      let entry : CacheEntry :=
        { status := TestStatus.FAIL, timestamp := now, responseTime := 0, result := result }
      (result, cache.set key entry, true)

/-- `apiTestTool.execute`: on a fresh cache hit return the stored result
with `cached: true` (no network call, cache unchanged); otherwise run the
miss path. -/
def apiTestExecute (cache : TestCache) (ctx : TestContext) (now : Int)
    (outcome : FetchOutcome) : TestResult × TestCache × Bool :=
  match cache (cacheKey ctx) with
  | some entry =>
      if now - entry.timestamp < ctx.cacheTTL then
        ({ entry.result with cached := true }, cache, false)
      else apiTestMiss cache ctx now outcome
  | none => apiTestMiss cache ctx now outcome

/-! ### The health-check tool with its module-level cache cell -/

inductive HealthStatus
  | UP | DOWN
deriving DecidableEq, Repr

/-- The module-level `healthCache` object of `health-check-tool.ts`: a
single process-wide cell (note: not keyed by target URL). -/
structure HealthCache where
  status : Option HealthStatus
  timestamp : Option Int
  lastError : Option String
deriving DecidableEq, Repr

/-- The initial cell `{ status: null, timestamp: null, lastError: null }`. -/
def HealthCache.empty : HealthCache :=
  { status := Option.none, timestamp := Option.none, lastError := Option.none }

/-- The result object returned by `healthCheckTool.execute`; ISO timestamp
strings are modelled by the millisecond value they are built from. -/
structure HealthResult where
  status : HealthStatus
  cached : Bool
  timestamp : Int
  cacheAge : Option Int
  httpStatus : Option Nat
  statusChanged : Option Bool
  error : Option String
deriving DecidableEq, Repr

/-- Outcome of the `fetch` in `healthCheckTool.execute`. -/
inductive HealthFetchOutcome
  | success (httpStatus : Nat)
  | failure (msg : String)
deriving DecidableEq, Repr

/-- The cache-hit test of `healthCheckTool.execute`: `cacheAge =
healthCache.timestamp ? now - healthCache.timestamp : Infinity` (JS
truthiness: a 0 timestamp also counts as absent), `isCacheFresh = cacheAge
< cacheTTL`, and the hit additionally requires `healthCache.status !==
null`. -/
def isHealthCacheHit (cache : HealthCache) (cacheTTL : Int) (now : Int) : Bool :=
  match cache.timestamp, cache.status with
  | some ts, some _ => ts != 0 && decide (now - ts < cacheTTL)
  | _, _ => false

/-- `Math.round(cacheAge / 1000)` for a non-negative millisecond age. -/
def roundToSeconds (ageMs : Int) : Int :=
  (ageMs + 500) / 1000

/-- `healthCheckTool.execute`: returns the result, the new cache cell, and
whether an outbound network request happened.  On a fresh hit the cached
status is returned unchanged; on a miss the fetch outcome decides UP/DOWN
(`response.ok`), with any error forcing DOWN and recording `lastError`.
Note the two different change-detection expressions: the success path uses
`healthCache.status !== null && healthCache.status !== newStatus`, the
catch path uses `healthCache.status !== 'DOWN'`. -/
def healthCheckExecute (cache : HealthCache) (targetUrl : String) (cacheTTL : Int)
    (now : Int) (outcome : HealthFetchOutcome) : HealthResult × HealthCache × Bool :=
  if isHealthCacheHit cache cacheTTL now then
    let ts := cache.timestamp.getD 0
    let st := (cache.status.getD HealthStatus.DOWN)
    let result : HealthResult :=
      { status := st, cached := true, timestamp := ts,
        cacheAge := some (roundToSeconds (now - ts)),
        httpStatus := Option.none, statusChanged := Option.none, error := Option.none }
    (result, cache, false)
  else
    match outcome with
    | .success httpStatus =>
        let isUp := respOk httpStatus
        let newStatus := if isUp then HealthStatus.UP else HealthStatus.DOWN
        let statusChanged := cache.status.isSome && cache.status != some newStatus
        let newCache : HealthCache :=
          { status := some newStatus, timestamp := some now, lastError := Option.none }
        let result : HealthResult :=
          { status := newStatus, cached := false, timestamp := now,
            cacheAge := Option.none, httpStatus := some httpStatus,
            statusChanged := some statusChanged, error := Option.none }
        (result, newCache, true)
    | .failure msg =>
        let statusChanged := cache.status != some HealthStatus.DOWN
        let newCache : HealthCache :=
          { status := some HealthStatus.DOWN, timestamp := some now, lastError := some msg }
        let result : HealthResult :=
          { status := HealthStatus.DOWN, cached := false, timestamp := now,
            cacheAge := Option.none, httpStatus := Option.none,
            statusChanged := some statusChanged, error := some msg }
        (result, newCache, true)

/-! ### The Telex A2A route handler (`telexA2AHandler`) -/

/-- One element of `message.parts`. -/
structure A2AMessagePart where
  text : Option String
deriving DecidableEq, Repr

structure A2AMessage where
  parts : Option (List A2AMessagePart)
deriving DecidableEq, Repr

structure PushNotificationConfig where
  url : Option String
  token : Option String
deriving DecidableEq, Repr

structure A2AConfiguration where
  pushNotificationConfig : Option PushNotificationConfig
deriving DecidableEq, Repr

structure A2AParams where
  message : Option A2AMessage
  contextId : Option String
  taskId : Option String
  configuration : Option A2AConfiguration
deriving DecidableEq, Repr

/-- The parsed JSON-RPC request body of a task submission. -/
structure A2ABody where
  jsonrpc : Option String
  id : Option String
  method : Option String
  params : Option A2AParams
deriving DecidableEq, Repr

/-- JS truthiness of an optional string: present and non-empty. -/
def truthyOpt (s : Option String) : Bool :=
  match s with
  | some t => t ≠ ""
  | none => false

/-- `configuration?.pushNotificationConfig?.url` via optional chaining. -/
def webhookUrlOf (b : A2ABody) : Option String :=
  b.params.bind (fun p => p.configuration.bind (fun c => c.pushNotificationConfig.bind (fun pc => pc.url)))

/-- `configuration?.pushNotificationConfig?.token`. -/
def webhookTokenOf (b : A2ABody) : Option String :=
  b.params.bind (fun p => p.configuration.bind (fun c => c.pushNotificationConfig.bind (fun pc => pc.token)))

/-- `message?.parts?.[0]?.text`. -/
def mainPromptOf (b : A2ABody) : Option String :=
  (b.params.bind (fun p => p.message.bind (fun m => m.parts.bind List.head?))).bind (fun part => part.text)

/-- The JSON body of the synchronous handler response: the 202-accepted
shape `{status:"success", status_code:202, message, task_id}` or the error
shape `{status:"error", status_code:500, message, data:{details}}`. -/
structure A2AResponse where
  httpStatus : Nat
  status : String
  statusCode : Nat
  message : String
  taskIdField : Option String
  details : Option String
deriving DecidableEq, Repr

/-- `telexA2AHandler`'s synchronous path.  A missing/empty webhook url or
token, or a missing/empty `message.parts[0].text`, throws; the outer catch
converts the throw into the structured 500 error response.  On the valid
path the handler starts `runAgentAndPushResult` without awaiting it
(second component `true`) and immediately returns the 202 body with
`task_id = taskId || randomUUID()` (`freshUuid` stands for the generated
UUID).  The callback push to the webhook happens only inside the
background work, so a `false` second component means no push can ever be
attempted for this submission. -/
def telexA2AHandle (b : A2ABody) (freshUuid : String) : A2AResponse × Bool :=
  if !truthyOpt (webhookUrlOf b) || !truthyOpt (webhookTokenOf b) then
    ({ httpStatus := 500, status := "error", statusCode := 500,
       message := "Internal Server Error", taskIdField := Option.none,
       details := some "Missing pushNotificationConfig in request" }, false)
  else if !truthyOpt (mainPromptOf b) then
    ({ httpStatus := 500, status := "error", statusCode := 500,
       message := "Internal Server Error", taskIdField := Option.none,
       details := some "Could not find main prompt in message.parts[0].text" }, false)
  else
    let taskId := b.params.bind (fun p => p.taskId)
    let taskIdField := if truthyOpt taskId then taskId.getD freshUuid else freshUuid
    ({ httpStatus := 202, status := "success", statusCode := 202,
       message := "request received", taskIdField := some taskIdField,
       details := Option.none }, true)

/-! ### Counting the declared rule instances of a ValidationSpec -/

/-- 1 for a declared scalar rule, 0 for an undeclared one. -/
def countOpt {α : Type} (o : Option α) : Nat :=
  match o with
  | some _ => 1
  | none => 0

/-- Number of instances of a declared list rule (one check per token). -/
def countListOpt {α : Type} (o : Option (List α)) : Nat :=
  match o with
  | some l => l.length
  | none => 0

/-- The number N of declared independent rule instances of an
Expectations record. -/
def declaredChecks (e : Expectations) : Nat :=
  countOpt e.statusCode + countOpt e.statusCodeRange + countOpt e.maxResponseTime +
    countListOpt e.bodyContains + countListOpt e.bodyNotContains +
    countListOpt e.requiredHeaders + countOpt e.responseType

/-- N for an optional Expectations record (absent spec declares no rules). -/
def declaredChecksOpt (e : Option Expectations) : Nat :=
  match e with
  | some exps => declaredChecks exps
  | none => 0

/-- The same record with the two body-content rules removed. -/
def eraseBodyRules (e : Expectations) : Expectations :=
  { e with bodyContains := Option.none, bodyNotContains := Option.none }

/-! ### Per-stage counting lemmas -/

theorem stageStatusCode_total (sc : Option Nat) (status : Nat) (acc : VAcc) :
    (stageStatusCode sc status acc).total = acc.total + countOpt sc := by
  cases sc <;> simp [stageStatusCode, countOpt]

theorem stageStatusCode_passed (sc : Option Nat) (status : Nat) (acc : VAcc) :
    acc.passed ≤ (stageStatusCode sc status acc).passed ∧
      (stageStatusCode sc status acc).passed ≤ acc.passed + countOpt sc := by
  cases sc <;> simp [stageStatusCode, countOpt] <;> split <;> omega

theorem stageStatusCodeRange_total (r : Option (Nat × Nat)) (status : Nat) (acc : VAcc) :
    (stageStatusCodeRange r status acc).total = acc.total + countOpt r := by
  cases r with
  | none => simp [stageStatusCodeRange, countOpt]
  | some p => cases p; simp [stageStatusCodeRange, countOpt]

theorem stageStatusCodeRange_passed (r : Option (Nat × Nat)) (status : Nat) (acc : VAcc) :
    acc.passed ≤ (stageStatusCodeRange r status acc).passed ∧
      (stageStatusCodeRange r status acc).passed ≤ acc.passed + countOpt r := by
  cases r with
  | none => simp [stageStatusCodeRange, countOpt]
  | some p => cases p; simp [stageStatusCodeRange, countOpt]; split <;> omega

theorem stageResponseTime_total (m : Option Int) (rt : Int) (acc : VAcc) :
    (stageResponseTime m rt acc).total = acc.total + countOpt m := by
  cases m <;> simp [stageResponseTime, countOpt]

theorem stageResponseTime_passed (m : Option Int) (rt : Int) (acc : VAcc) :
    acc.passed ≤ (stageResponseTime m rt acc).passed ∧
      (stageResponseTime m rt acc).passed ≤ acc.passed + countOpt m := by
  cases m <;> simp [stageResponseTime, countOpt] <;> split <;> omega

theorem stageBodyContains_total (bc : Option (List String)) (rb : String) (acc : VAcc)
    (hrb : rb ≠ "") :
    (stageBodyContains bc rb acc).total = acc.total + countListOpt bc := by
  cases bc <;> simp [stageBodyContains, countListOpt, hrb]

theorem stageBodyContains_passed (bc : Option (List String)) (rb : String) (acc : VAcc) :
    acc.passed ≤ (stageBodyContains bc rb acc).passed ∧
      (stageBodyContains bc rb acc).passed ≤ acc.passed + countListOpt bc := by
  cases bc with
  | none => simp [stageBodyContains, countListOpt]
  | some texts =>
      by_cases hrb : rb = "" <;>
        simp [stageBodyContains, countListOpt, hrb] <;>
        have := List.length_filter_le (fun text => strIncludes rb text) texts <;>
        omega

theorem stageBodyContains_skip (bc : Option (List String)) (acc : VAcc) :
    stageBodyContains bc "" acc = acc := by
  cases bc <;> simp [stageBodyContains]

theorem stageBodyNotContains_total (bnc : Option (List String)) (rb : String) (acc : VAcc)
    (hrb : rb ≠ "") :
    (stageBodyNotContains bnc rb acc).total = acc.total + countListOpt bnc := by
  cases bnc <;> simp [stageBodyNotContains, countListOpt, hrb]

theorem stageBodyNotContains_passed (bnc : Option (List String)) (rb : String) (acc : VAcc) :
    acc.passed ≤ (stageBodyNotContains bnc rb acc).passed ∧
      (stageBodyNotContains bnc rb acc).passed ≤ acc.passed + countListOpt bnc := by
  cases bnc with
  | none => simp [stageBodyNotContains, countListOpt]
  | some texts =>
      by_cases hrb : rb = "" <;>
        simp [stageBodyNotContains, countListOpt, hrb] <;>
        have := List.length_filter_le (fun text => !strIncludes rb text) texts <;>
        omega

theorem stageBodyNotContains_skip (bnc : Option (List String)) (acc : VAcc) :
    stageBodyNotContains bnc "" acc = acc := by
  cases bnc <;> simp [stageBodyNotContains]

theorem stageRequiredHeaders_total (rh : Option (List String)) (hs : List (String × String))
    (acc : VAcc) :
    (stageRequiredHeaders rh hs acc).total = acc.total + countListOpt rh := by
  cases rh <;> simp [stageRequiredHeaders, countListOpt]

theorem stageRequiredHeaders_passed (rh : Option (List String)) (hs : List (String × String))
    (acc : VAcc) :
    acc.passed ≤ (stageRequiredHeaders rh hs acc).passed ∧
      (stageRequiredHeaders rh hs acc).passed ≤ acc.passed + countListOpt rh := by
  cases rh with
  | none => simp [stageRequiredHeaders, countListOpt]
  | some names =>
      simp [stageRequiredHeaders, countListOpt]
      have := List.length_filter_le (fun header => headersHas hs header.toLower) names
      omega

theorem stageResponseType_total (rt : Option RespType) (ct : String) (acc : VAcc) :
    (stageResponseType rt ct acc).total = acc.total + countOpt rt := by
  cases rt <;> simp [stageResponseType, countOpt]

theorem stageResponseType_passed (rt : Option RespType) (ct : String) (acc : VAcc) :
    acc.passed ≤ (stageResponseType rt ct acc).passed ∧
      (stageResponseType rt ct acc).passed ≤ acc.passed + countOpt rt := by
  cases rt <;> simp [stageResponseType, countOpt] <;> split <;> omega

/-! ### Aggregate lemmas about the validation run -/

theorem runValidations_total (e : Expectations) (status : Nat)
    (hs : List (String × String)) (ct : String) (rt : Int) (rb : String) (hrb : rb ≠ "") :
    (runValidations (some e) status hs ct rt rb).total = declaredChecks e := by
  simp only [runValidations, declaredChecks]
  rw [stageResponseType_total, stageRequiredHeaders_total,
    stageBodyNotContains_total _ _ _ hrb, stageBodyContains_total _ _ _ hrb,
    stageResponseTime_total, stageStatusCodeRange_total, stageStatusCode_total]
  have h0 : ({ v := Validations.empty, total := 0, passed := 0 } : VAcc).total = 0 := rfl
  omega

theorem runValidations_total_emptyBody (e : Expectations) (status : Nat)
    (hs : List (String × String)) (ct : String) (rt : Int) :
    (runValidations (some e) status hs ct rt "").total = declaredChecks (eraseBodyRules e) := by
  simp only [runValidations, declaredChecks, eraseBodyRules,
    stageBodyContains_skip, stageBodyNotContains_skip]
  rw [stageResponseType_total, stageRequiredHeaders_total,
    stageResponseTime_total, stageStatusCodeRange_total, stageStatusCode_total]
  simp [countListOpt]

theorem runValidations_passed_le_total (exps : Option Expectations) (status : Nat)
    (hs : List (String × String)) (ct : String) (rt : Int) (rb : String) :
    (runValidations exps status hs ct rt rb).passed ≤ (runValidations exps status hs ct rt rb).total := by
  cases exps with
  | none => simp [runValidations]
  | some e =>
      simp only [runValidations]
      have h0p : ({ v := Validations.empty, total := 0, passed := 0 } : VAcc).passed = 0 := rfl
      have h0t : ({ v := Validations.empty, total := 0, passed := 0 } : VAcc).total = 0 := rfl
      have h1 := stageStatusCode_passed e.statusCode status
        { v := Validations.empty, total := 0, passed := 0 }
      have t1 := stageStatusCode_total e.statusCode status
        { v := Validations.empty, total := 0, passed := 0 }
      set a1 := stageStatusCode e.statusCode status
        { v := Validations.empty, total := 0, passed := 0 }
      have h2 := stageStatusCodeRange_passed e.statusCodeRange status a1
      have t2 := stageStatusCodeRange_total e.statusCodeRange status a1
      set a2 := stageStatusCodeRange e.statusCodeRange status a1
      have h3 := stageResponseTime_passed e.maxResponseTime rt a2
      have t3 := stageResponseTime_total e.maxResponseTime rt a2
      set a3 := stageResponseTime e.maxResponseTime rt a2
      have h4 := stageBodyContains_passed e.bodyContains rb a3
      have t4 : a3.total ≤ (stageBodyContains e.bodyContains rb a3).total ∧
          (stageBodyContains e.bodyContains rb a3).total ≤ a3.total + countListOpt e.bodyContains := by
        by_cases hrb : rb = ""
        · subst hrb; rw [stageBodyContains_skip]; omega
        · rw [stageBodyContains_total _ _ _ hrb]; omega
      have hp4 : (stageBodyContains e.bodyContains rb a3).passed ≤
          a3.passed + ((stageBodyContains e.bodyContains rb a3).total - a3.total) := by
        by_cases hrb : rb = ""
        · subst hrb; rw [stageBodyContains_skip]; omega
        · rw [stageBodyContains_total _ _ _ hrb]
          have := stageBodyContains_passed e.bodyContains rb a3
          omega
      set a4 := stageBodyContains e.bodyContains rb a3
      have h5 := stageBodyNotContains_passed e.bodyNotContains rb a4
      have hp5 : (stageBodyNotContains e.bodyNotContains rb a4).passed ≤
          a4.passed + ((stageBodyNotContains e.bodyNotContains rb a4).total - a4.total) := by
        by_cases hrb : rb = ""
        · subst hrb; rw [stageBodyNotContains_skip]; omega
        · rw [stageBodyNotContains_total _ _ _ hrb]
          have := stageBodyNotContains_passed e.bodyNotContains rb a4
          omega
      have t5 : a4.total ≤ (stageBodyNotContains e.bodyNotContains rb a4).total := by
        by_cases hrb : rb = ""
        · subst hrb; rw [stageBodyNotContains_skip]
        · rw [stageBodyNotContains_total _ _ _ hrb]; omega
      set a5 := stageBodyNotContains e.bodyNotContains rb a4
      have h6 := stageRequiredHeaders_passed e.requiredHeaders hs a5
      have t6 := stageRequiredHeaders_total e.requiredHeaders hs a5
      set a6 := stageRequiredHeaders e.requiredHeaders hs a5
      have h7 := stageResponseType_passed e.responseType ct a6
      have t7 := stageResponseType_total e.responseType ct a6
      omega

/-! ### Which stage writes which validations slot -/

theorem stageResponseTime_statusCode_slot (m : Option Int) (rt : Int) (acc : VAcc) :
    (stageResponseTime m rt acc).v.statusCode = acc.v.statusCode := by
  cases m <;> simp [stageResponseTime]

theorem stageBodyContains_statusCode_slot (bc : Option (List String)) (rb : String) (acc : VAcc) :
    (stageBodyContains bc rb acc).v.statusCode = acc.v.statusCode := by
  cases bc with
  | none => simp [stageBodyContains]
  | some texts => by_cases hrb : rb = "" <;> simp [stageBodyContains, hrb]

theorem stageBodyNotContains_statusCode_slot (bnc : Option (List String)) (rb : String) (acc : VAcc) :
    (stageBodyNotContains bnc rb acc).v.statusCode = acc.v.statusCode := by
  cases bnc with
  | none => simp [stageBodyNotContains]
  | some texts => by_cases hrb : rb = "" <;> simp [stageBodyNotContains, hrb]

theorem stageRequiredHeaders_statusCode_slot (rh : Option (List String))
    (hs : List (String × String)) (acc : VAcc) :
    (stageRequiredHeaders rh hs acc).v.statusCode = acc.v.statusCode := by
  cases rh <;> simp [stageRequiredHeaders]

theorem stageResponseType_statusCode_slot (rt : Option RespType) (ct : String) (acc : VAcc) :
    (stageResponseType rt ct acc).v.statusCode = acc.v.statusCode := by
  cases rt <;> simp [stageResponseType]

theorem stageStatusCode_bodyContains_slot (sc : Option Nat) (status : Nat) (acc : VAcc) :
    (stageStatusCode sc status acc).v.bodyContains = acc.v.bodyContains := by
  cases sc <;> simp [stageStatusCode]

theorem stageStatusCodeRange_bodyContains_slot (r : Option (Nat × Nat)) (status : Nat) (acc : VAcc) :
    (stageStatusCodeRange r status acc).v.bodyContains = acc.v.bodyContains := by
  cases r with
  | none => simp [stageStatusCodeRange]
  | some p => cases p; simp [stageStatusCodeRange]

theorem stageResponseTime_bodyContains_slot (m : Option Int) (rt : Int) (acc : VAcc) :
    (stageResponseTime m rt acc).v.bodyContains = acc.v.bodyContains := by
  cases m <;> simp [stageResponseTime]

theorem stageBodyNotContains_bodyContains_slot (bnc : Option (List String)) (rb : String) (acc : VAcc) :
    (stageBodyNotContains bnc rb acc).v.bodyContains = acc.v.bodyContains := by
  cases bnc with
  | none => simp [stageBodyNotContains]
  | some texts => by_cases hrb : rb = "" <;> simp [stageBodyNotContains, hrb]

theorem stageRequiredHeaders_bodyContains_slot (rh : Option (List String))
    (hs : List (String × String)) (acc : VAcc) :
    (stageRequiredHeaders rh hs acc).v.bodyContains = acc.v.bodyContains := by
  cases rh <;> simp [stageRequiredHeaders]

theorem stageResponseType_bodyContains_slot (rt : Option RespType) (ct : String) (acc : VAcc) :
    (stageResponseType rt ct acc).v.bodyContains = acc.v.bodyContains := by
  cases rt <;> simp [stageResponseType]

/-- After the range block runs, the shared `validations.statusCode` slot
holds the range entry, whatever the exact block wrote before. -/
theorem runValidations_statusCode_slot (e : Expectations) (status : Nat)
    (hs : List (String × String)) (ct : String) (rt : Int) (rb : String)
    (lo hi : Nat) (hr : e.statusCodeRange = some (lo, hi)) :
    (runValidations (some e) status hs ct rt rb).v.statusCode =
      some ({ expected := .range lo hi, actual := status,
              passed := decide (lo ≤ status ∧ status ≤ hi) } : StatusCodeValidation) := by
  simp only [runValidations]
  rw [stageResponseType_statusCode_slot, stageRequiredHeaders_statusCode_slot,
    stageBodyNotContains_statusCode_slot, stageBodyContains_statusCode_slot,
    stageResponseTime_statusCode_slot, hr]
  simp [stageStatusCodeRange]

/-- The `validations.bodyContains` slot: written iff the rule is declared
and the response body string is truthy (non-empty). -/
theorem runValidations_bodyContains_slot (e : Expectations) (status : Nat)
    (hs : List (String × String)) (ct : String) (rt : Int) (rb : String) :
    (runValidations (some e) status hs ct rt rb).v.bodyContains =
      (match e.bodyContains with
       | some texts =>
           if rb = "" then Option.none
           else some (texts.map (fun text => (text, strIncludes rb text)))
       | none => Option.none) := by
  simp only [runValidations]
  rw [stageResponseType_bodyContains_slot, stageRequiredHeaders_bodyContains_slot,
    stageBodyNotContains_bodyContains_slot]
  cases hbc : e.bodyContains with
  | none =>
      simp only [stageBodyContains]
      rw [stageResponseTime_bodyContains_slot, stageStatusCodeRange_bodyContains_slot,
        stageStatusCode_bodyContains_slot]
      rfl
  | some texts =>
      by_cases hrb : rb = ""
      · subst hrb
        rw [stageBodyContains_skip]
        rw [stageResponseTime_bodyContains_slot, stageStatusCodeRange_bodyContains_slot,
          stageStatusCode_bodyContains_slot]
        simp [Validations.empty]
      · simp [stageBodyContains, hrb]

/-! ### Field equations for the miss path -/

theorem apiTestMiss_success_totalChecks (cache : TestCache) (ctx : TestContext) (now : Int)
    (resp : HttpResponse) (rtime : Int) :
    (apiTestMiss cache ctx now (FetchOutcome.success resp rtime)).1.totalChecks =
      (if (runValidations ctx.expectations resp.status resp.headers resp.contentType rtime (captureBody resp)).total = 0 then 1
       else (runValidations ctx.expectations resp.status resp.headers resp.contentType rtime (captureBody resp)).total) := rfl

theorem apiTestMiss_success_passedChecks (cache : TestCache) (ctx : TestContext) (now : Int)
    (resp : HttpResponse) (rtime : Int) :
    (apiTestMiss cache ctx now (FetchOutcome.success resp rtime)).1.passedChecks =
      (if (runValidations ctx.expectations resp.status resp.headers resp.contentType rtime (captureBody resp)).total = 0 then (if respOk resp.status then 1 else 0)
       else (runValidations ctx.expectations resp.status resp.headers resp.contentType rtime (captureBody resp)).passed) := rfl

theorem apiTestMiss_success_testStatus (cache : TestCache) (ctx : TestContext) (now : Int)
    (resp : HttpResponse) (rtime : Int) :
    (apiTestMiss cache ctx now (FetchOutcome.success resp rtime)).1.testStatus =
      (if (apiTestMiss cache ctx now (FetchOutcome.success resp rtime)).1.passedChecks = (apiTestMiss cache ctx now (FetchOutcome.success resp rtime)).1.totalChecks then TestStatus.PASS
       else TestStatus.FAIL) := rfl

theorem apiTestMiss_success_validations (cache : TestCache) (ctx : TestContext) (now : Int)
    (resp : HttpResponse) (rtime : Int) :
    (apiTestMiss cache ctx now (FetchOutcome.success resp rtime)).1.validations =
      some (runValidations ctx.expectations resp.status resp.headers resp.contentType rtime (captureBody resp)).v := rfl

/-- The total of a validation run equals the number of declared rule
instances, whenever the captured body is truthy. -/
theorem runValidations_total_opt (exps : Option Expectations) (status : Nat)
    (hs : List (String × String)) (ct : String) (rt : Int) (rb : String) (hrb : rb ≠ "") :
    (runValidations exps status hs ct rt rb).total = declaredChecksOpt exps := by
  cases exps with
  | none => simp [runValidations, declaredChecksOpt]
  | some e => rw [declaredChecksOpt]; exact runValidations_total e status hs ct rt rb hrb

/-- The total of a validation run against an empty (falsy) body string
equals the declared count with the two body-content rules erased. -/
theorem runValidations_total_emptyBody_opt (exps : Option Expectations) (status : Nat)
    (hs : List (String × String)) (ct : String) (rt : Int) :
    (runValidations exps status hs ct rt "").total
      = declaredChecksOpt (exps.map eraseBodyRules) := by
  cases exps with
  | none => simp [runValidations, declaredChecksOpt]
  | some e =>
      simp only [Option.map_some', declaredChecksOpt]
      exact runValidations_total_emptyBody e status hs ct rt

/-- C2 counterexample: a successfully captured but empty response body is
falsy, so the declared bodyContains instance is skipped — a spec declaring
N = 2 rule instances (statusCode plus one bodyContains token) yields
totalChecks = 1, not 2. -/
theorem apiTest_empty_body_breaks_check_count :
    declaredChecksOpt (some ({ Expectations.none with statusCode := some 200, bodyContains := some ["hello"] } : Expectations)) = 2
    ∧ captureBody { status := 200, statusText := "OK", contentType := "text/plain",
                    headers := [], captureOk := true, bodyText := "" } = ""
    ∧ (apiTestMiss TestCache.empty
        { url := "http://svc.test/empty", method := Method.GET, headers := Option.none,
          body := Option.none,
          expectations := some { Expectations.none with statusCode := some 200, bodyContains := some ["hello"] },
          cacheTTL := 300000, timeout := 10000 }
        1000
        (FetchOutcome.success
          { status := 200, statusText := "OK", contentType := "text/plain",
            headers := [], captureOk := true, bodyText := "" } 50)).1.totalChecks = 1 := by
  refine ⟨rfl, rfl, rfl⟩

/-- C2 amended: passedChecks never exceeds totalChecks and testStatus is
PASS iff passedChecks equals totalChecks, unconditionally.  totalChecks
equals the declared count N (or 1 when N = 0, the implicit check passing
iff the HTTP status is 200-299) whenever the captured body string is
truthy (non-empty); when the captured body string is empty the declared
bodyContains/bodyNotContains instances are skipped, and totalChecks
equals the count of the remaining declared instances (with the same
or-1-when-zero fallback). -/
theorem apiTest_check_counting (cache : TestCache) (ctx : TestContext) (now : Int)
    (resp : HttpResponse) (rtime : Int) :
    ((apiTestMiss cache ctx now (FetchOutcome.success resp rtime)).1.passedChecks
        ≤ (apiTestMiss cache ctx now (FetchOutcome.success resp rtime)).1.totalChecks)
    ∧ ((apiTestMiss cache ctx now (FetchOutcome.success resp rtime)).1.testStatus = TestStatus.PASS
        ↔ (apiTestMiss cache ctx now (FetchOutcome.success resp rtime)).1.passedChecks
            = (apiTestMiss cache ctx now (FetchOutcome.success resp rtime)).1.totalChecks)
    ∧ (captureBody resp ≠ "" →
        ((apiTestMiss cache ctx now (FetchOutcome.success resp rtime)).1.totalChecks
            = (if declaredChecksOpt ctx.expectations = 0 then 1 else declaredChecksOpt ctx.expectations))
        ∧ (declaredChecksOpt ctx.expectations = 0 →
            (apiTestMiss cache ctx now (FetchOutcome.success resp rtime)).1.passedChecks
              = (if respOk resp.status then 1 else 0)))
    ∧ (captureBody resp = "" →
        ((apiTestMiss cache ctx now (FetchOutcome.success resp rtime)).1.totalChecks
            = (if declaredChecksOpt (ctx.expectations.map eraseBodyRules) = 0 then 1
               else declaredChecksOpt (ctx.expectations.map eraseBodyRules)))
        ∧ (declaredChecksOpt (ctx.expectations.map eraseBodyRules) = 0 →
            (apiTestMiss cache ctx now (FetchOutcome.success resp rtime)).1.passedChecks
              = (if respOk resp.status then 1 else 0))) := by
  have hle := runValidations_passed_le_total ctx.expectations resp.status resp.headers
    resp.contentType rtime (captureBody resp)
  refine ⟨?_, ?_, ?_, ?_⟩
  · rw [apiTestMiss_success_totalChecks, apiTestMiss_success_passedChecks]
    by_cases h0 : (runValidations ctx.expectations resp.status resp.headers resp.contentType rtime (captureBody resp)).total = 0
    · simp only [h0, if_true]
      split <;> omega
    · simp only [h0, if_false]
      exact hle
  · rw [apiTestMiss_success_testStatus]
    split <;> simp_all
  · intro hrb
    have htot := runValidations_total_opt ctx.expectations resp.status resp.headers
      resp.contentType rtime (captureBody resp) hrb
    constructor
    · rw [apiTestMiss_success_totalChecks, htot]
    · intro hN
      rw [apiTestMiss_success_passedChecks, htot, hN]
      simp
  · intro hrb
    have htot : (runValidations ctx.expectations resp.status resp.headers resp.contentType rtime (captureBody resp)).total
        = declaredChecksOpt (ctx.expectations.map eraseBodyRules) := by
      rw [hrb]
      exact runValidations_total_emptyBody_opt ctx.expectations resp.status resp.headers
        resp.contentType rtime
    constructor
    · rw [apiTestMiss_success_totalChecks, htot]
    · intro hN
      rw [apiTestMiss_success_passedChecks, htot, hN]
      simp

/-- C2 amended witness: two declared non-body rules against a truthy 200
response body, exercising the truthy-body branch. -/
theorem apiTest_check_counting_witness :
    (captureBody { status := 200, statusText := "OK", contentType := "text/plain",
                   headers := [], captureOk := true, bodyText := "pong" } ≠ "")
    ∧ ((apiTestMiss TestCache.empty
          { url := "http://svc.test/ok", method := Method.GET, headers := Option.none,
            body := Option.none,
            expectations := some { Expectations.none with statusCode := some 200, maxResponseTime := some 1000 },
            cacheTTL := 300000, timeout := 10000 }
          1000
          (FetchOutcome.success
            { status := 200, statusText := "OK", contentType := "text/plain",
              headers := [], captureOk := true, bodyText := "pong" } 50)).1.totalChecks
        = (if declaredChecksOpt (some ({ Expectations.none with statusCode := some 200, maxResponseTime := some 1000 } : Expectations)) = 0 then 1
           else declaredChecksOpt (some ({ Expectations.none with statusCode := some 200, maxResponseTime := some 1000 } : Expectations)))) := by
  constructor
  · decide
  · exact ((apiTest_check_counting TestCache.empty
      { url := "http://svc.test/ok", method := Method.GET, headers := Option.none,
        body := Option.none,
        expectations := some { Expectations.none with statusCode := some 200, maxResponseTime := some 1000 },
        cacheTTL := 300000, timeout := 10000 }
      1000
      { status := 200, statusText := "OK", contentType := "text/plain",
        headers := [], captureOk := true, bodyText := "pong" } 50).2.2.1 (by decide)).1

/-- C6 counterexample: a response whose body could not be parsed gets the
truthy placeholder text, so a declared bodyContains rule is evaluated
against the placeholder and recorded as a failed check (totalChecks 1,
passedChecks 0) instead of being skipped. -/
theorem apiTest_unparsed_body_check_counted :
    ((apiTestMiss TestCache.empty
        { url := "http://svc.test/data", method := Method.GET, headers := Option.none,
          body := Option.none,
          expectations := some { Expectations.none with bodyContains := some ["hello"] },
          cacheTTL := 300000, timeout := 10000 }
        1000
        (FetchOutcome.success
          { status := 200, statusText := "OK", contentType := "application/json",
            headers := [], captureOk := false, bodyText := "" } 50)).1.totalChecks = 1)
    ∧ ((apiTestMiss TestCache.empty
        { url := "http://svc.test/data", method := Method.GET, headers := Option.none,
          body := Option.none,
          expectations := some { Expectations.none with bodyContains := some ["hello"] },
          cacheTTL := 300000, timeout := 10000 }
        1000
        (FetchOutcome.success
          { status := 200, statusText := "OK", contentType := "application/json",
            headers := [], captureOk := false, bodyText := "" } 50)).1.passedChecks = 0)
    ∧ ((apiTestMiss TestCache.empty
        { url := "http://svc.test/data", method := Method.GET, headers := Option.none,
          body := Option.none,
          expectations := some { Expectations.none with bodyContains := some ["hello"] },
          cacheTTL := 300000, timeout := 10000 }
        1000
        (FetchOutcome.success
          { status := 200, statusText := "OK", contentType := "application/json",
            headers := [], captureOk := false, bodyText := "" } 50)).1.testStatus = TestStatus.FAIL)
    ∧ ((apiTestMiss TestCache.empty
        { url := "http://svc.test/data", method := Method.GET, headers := Option.none,
          body := Option.none,
          expectations := some { Expectations.none with bodyContains := some ["hello"] },
          cacheTTL := 300000, timeout := 10000 }
        1000
        (FetchOutcome.success
          { status := 200, statusText := "OK", contentType := "application/json",
            headers := [], captureOk := false, bodyText := "" } 50)).1.validations
        = some ({ Validations.empty with bodyContains := some [("hello", false)] })) := by
  refine ⟨rfl, rfl, rfl, ?_⟩
  rw [apiTestMiss_success_validations]
  decide

/-- C6 amended: contains-checks are skipped (no checks recorded) iff the
captured body string is falsy (empty); a parse failure substitutes the
non-empty placeholder text, against which the checks do run. -/
theorem apiTest_bodyChecks_skipped_iff_falsy (e : Expectations) (status : Nat)
    (hs : List (String × String)) (ct : String) (rt : Int) (l : List String)
    (hbc : e.bodyContains = some l) :
    ((runValidations (some e) status hs ct rt "").v.bodyContains = Option.none)
    ∧ ((runValidations (some e) status hs ct rt "").total = declaredChecks (eraseBodyRules e))
    ∧ (∀ rb : String, rb ≠ "" →
        (runValidations (some e) status hs ct rt rb).v.bodyContains
          = some (l.map (fun text => (text, strIncludes rb text)))
        ∧ (runValidations (some e) status hs ct rt rb).total = declaredChecks e)
    ∧ (∀ resp : HttpResponse, resp.captureOk = false →
        captureBody resp = "[Unable to parse response body]" ∧ captureBody resp ≠ "") := by
  refine ⟨?_, ?_, ?_, ?_⟩
  · rw [runValidations_bodyContains_slot, hbc]
    simp
  · exact runValidations_total_emptyBody e status hs ct rt
  · intro rb hrb
    constructor
    · rw [runValidations_bodyContains_slot, hbc]
      simp [hrb]
    · exact runValidations_total e status hs ct rt rb hrb
  · intro resp hcap
    have h1 : captureBody resp = "[Unable to parse response body]" := by
      rw [captureBody, hcap]
      simp
    refine ⟨h1, ?_⟩
    rw [h1]
    decide

/-- C6 amended witness: a one-token bodyContains rule. -/
theorem apiTest_bodyChecks_skipped_iff_falsy_witness :
    (({ Expectations.none with bodyContains := some ["ok"] } : Expectations).bodyContains = some ["ok"])
    ∧ ((runValidations (some { Expectations.none with bodyContains := some ["ok"] }) 200 [] "text/plain" 10 "").v.bodyContains = Option.none) := by
  refine ⟨rfl, ?_⟩
  exact (apiTest_bodyChecks_skipped_iff_falsy
    { Expectations.none with bodyContains := some ["ok"] } 200 [] "text/plain" 10 ["ok"] rfl).1

/-- C7: when both an exact status-code rule and a range rule are declared,
each contributes one check to the total, and the shared
`validations.statusCode` slot ends up holding the range outcome (the
later-declared range overwrites the exact-match entry). -/
theorem apiTest_range_overwrites_exact (cache : TestCache) (ctx : TestContext) (now : Int)
    (resp : HttpResponse) (rtime : Int) (e : Expectations) (n lo hi : Nat)
    (he : ctx.expectations = some e) (hsc : e.statusCode = some n)
    (hr : e.statusCodeRange = some (lo, hi)) (hrb : captureBody resp ≠ "") :
    ((apiTestMiss cache ctx now (FetchOutcome.success resp rtime)).1.totalChecks
        = 2 + (countOpt e.maxResponseTime + countListOpt e.bodyContains +
               countListOpt e.bodyNotContains + countListOpt e.requiredHeaders +
               countOpt e.responseType))
    ∧ ((apiTestMiss cache ctx now (FetchOutcome.success resp rtime)).1.validations.map
          (fun v => v.statusCode)
        = some (some ({ expected := .range lo hi, actual := resp.status,
                        passed := decide (lo ≤ resp.status ∧ resp.status ≤ hi) } : StatusCodeValidation))) := by
  have htot : (runValidations ctx.expectations resp.status resp.headers resp.contentType rtime (captureBody resp)).total = declaredChecks e := by
    rw [he]
    exact runValidations_total e resp.status resp.headers resp.contentType rtime (captureBody resp) hrb
  have hd : declaredChecks e = 2 + (countOpt e.maxResponseTime + countListOpt e.bodyContains +
      countListOpt e.bodyNotContains + countListOpt e.requiredHeaders + countOpt e.responseType) := by
    rw [declaredChecks, hsc, hr]
    simp [countOpt]
    omega
  constructor
  · rw [apiTestMiss_success_totalChecks, htot, hd, if_neg (by omega)]
  · rw [apiTestMiss_success_validations]
    simp only [Option.map_some']
    rw [he, runValidations_statusCode_slot _ _ _ _ _ _ lo hi hr]

/-- C7 witness: exact rule 200 plus range rule 200-299 on a 204 response. -/
theorem apiTest_range_overwrites_exact_witness :
    (({ Expectations.none with statusCode := some 200, statusCodeRange := some (200, 299) } : Expectations).statusCode = some 200)
    ∧ ((apiTestMiss TestCache.empty
          { url := "http://svc.test/ok", method := Method.GET, headers := Option.none,
            body := Option.none,
            expectations := some { Expectations.none with statusCode := some 200, statusCodeRange := some (200, 299) },
            cacheTTL := 300000, timeout := 10000 }
          1000
          (FetchOutcome.success
            { status := 204, statusText := "No Content", contentType := "text/plain",
              headers := [], captureOk := true, bodyText := "x" } 50)).1.totalChecks
        = 2 + (countOpt (Option.none : Option Int) + countListOpt (Option.none : Option (List String)) +
               countListOpt (Option.none : Option (List String)) + countListOpt (Option.none : Option (List String)) +
               countOpt (Option.none : Option RespType))) := by
  constructor
  · rfl
  · exact (apiTest_range_overwrites_exact TestCache.empty
      { url := "http://svc.test/ok", method := Method.GET, headers := Option.none,
        body := Option.none,
        expectations := some { Expectations.none with statusCode := some 200, statusCodeRange := some (200, 299) },
        cacheTTL := 300000, timeout := 10000 }
      1000
      { status := 204, statusText := "No Content", contentType := "text/plain",
        headers := [], captureOk := true, bodyText := "x" } 50
      { Expectations.none with statusCode := some 200, statusCodeRange := some (200, 299) }
      200 200 299 rfl rfl rfl (by decide)).1

/-! ### Cache behavior of the api-test executor -/

/-- A fresh cache hit returns the stored result with `cached := true`,
leaves the cache untouched, and performs no network request. -/
theorem apiTestExecute_fresh_hit (cache : TestCache) (ctx : TestContext) (now : Int)
    (o : FetchOutcome) (entry : CacheEntry) (hentry : cache (cacheKey ctx) = some entry)
    (hfresh : now - entry.timestamp < ctx.cacheTTL) :
    apiTestExecute cache ctx now o = ({ entry.result with cached := true }, cache, false) := by
  unfold apiTestExecute
  rw [hentry]
  simp [hfresh]

/-- When the cache-hit test fails, the executor runs the miss path. -/
theorem apiTestExecute_miss_eq (cache : TestCache) (ctx : TestContext) (now : Int)
    (o : FetchOutcome) (h : isTestCacheHit cache ctx now = false) :
    apiTestExecute cache ctx now o = apiTestMiss cache ctx now o := by
  unfold apiTestExecute
  cases hc : cache (cacheKey ctx) with
  | none => rfl
  | some entry =>
      rw [isTestCacheHit, hc] at h
      simp only [decide_eq_false_iff_not] at h
      simp [h]

/-- The miss path always reports an outbound network request. -/
theorem apiTestMiss_network (cache : TestCache) (ctx : TestContext) (now : Int)
    (o : FetchOutcome) : (apiTestMiss cache ctx now o).2.2 = true := by
  cases o <;> rfl

/-- The miss path writes an entry under the request's cache key whose
stored timestamp is the call time. -/
theorem apiTestMiss_cache_key_timestamp (cache : TestCache) (ctx : TestContext) (now : Int)
    (o : FetchOutcome) :
    ((apiTestMiss cache ctx now o).2.1 (cacheKey ctx)).map (fun e => e.timestamp) = some now := by
  cases o <;> simp [apiTestMiss, TestCache.set]

/-- The entry written by the miss path stores exactly the returned result. -/
theorem apiTestMiss_cache_key_result (cache : TestCache) (ctx : TestContext) (now : Int)
    (o : FetchOutcome) :
    ((apiTestMiss cache ctx now o).2.1 (cacheKey ctx)).map (fun e => e.result)
      = some (apiTestMiss cache ctx now o).1 := by
  cases o <;> simp [apiTestMiss, TestCache.set]

/-- On a hit the executor reports no network request; contrapositive of
taking the miss path. -/
theorem apiTestExecute_network_imp_miss (cache : TestCache) (ctx : TestContext) (now : Int)
    (o : FetchOutcome) (hnet : (apiTestExecute cache ctx now o).2.2 = true) :
    apiTestExecute cache ctx now o = apiTestMiss cache ctx now o := by
  by_cases h : isTestCacheHit cache ctx now = true
  · exfalso
    rw [isTestCacheHit] at h
    cases hc : cache (cacheKey ctx) with
    | none => rw [hc] at h; exact Bool.false_ne_true h
    | some entry =>
        rw [hc] at h
        have hfr := of_decide_eq_true h
        rw [apiTestExecute_fresh_hit cache ctx now o entry hc hfr] at hnet
        exact Bool.false_ne_true hnet
  · exact apiTestExecute_miss_eq cache ctx now o (Bool.not_eq_true _ ▸ Bool.of_not_eq_true h)

/-- Sequential pair: if the first call hit the network, a second call for
the same cache key within the TTL window returns the first call's result
(with `cached := true`), changes nothing, and performs no network request. -/
theorem apiTest_sequential_hit (cache : TestCache) (ctx ctx2 : TestContext) (t1 t2 : Int)
    (o1 o2 : FetchOutcome) (hkey : cacheKey ctx2 = cacheKey ctx)
    (hnet : (apiTestExecute cache ctx t1 o1).2.2 = true)
    (hfresh : t2 - t1 < ctx2.cacheTTL) :
    apiTestExecute (apiTestExecute cache ctx t1 o1).2.1 ctx2 t2 o2 =
      ({ (apiTestExecute cache ctx t1 o1).1 with cached := true },
        (apiTestExecute cache ctx t1 o1).2.1, false) := by
  have hmiss := apiTestExecute_network_imp_miss cache ctx t1 o1 hnet
  rw [hmiss]
  have hts := apiTestMiss_cache_key_timestamp cache ctx t1 o1
  have hres := apiTestMiss_cache_key_result cache ctx t1 o1
  cases hc : (apiTestMiss cache ctx t1 o1).2.1 (cacheKey ctx) with
  | none => rw [hc] at hts; exact absurd hts (by simp)
  | some entry =>
      rw [hc] at hts hres
      simp only [Option.map_some', Option.some.injEq] at hts hres
      have hentry2 : (apiTestMiss cache ctx t1 o1).2.1 (cacheKey ctx2) = some entry := by
        rw [hkey]; exact hc
      have hfresh2 : t2 - entry.timestamp < ctx2.cacheTTL := by rw [hts]; exact hfresh
      rw [apiTestExecute_fresh_hit _ ctx2 t2 o2 entry hentry2 hfresh2, hres]

/-- C3: a call whose cache key holds a result younger than the call's
cacheTTL performs no network request and returns the stored payload with
`cached := true`; consequently, under sequential calls, a second call for
the same key within the TTL window performs no second outbound request. -/
theorem apiTest_cache_hit_no_network (cache : TestCache) (ctx : TestContext) (now : Int)
    (o : FetchOutcome) (entry : CacheEntry) (hentry : cache (cacheKey ctx) = some entry)
    (hfresh : now - entry.timestamp < ctx.cacheTTL) :
    apiTestExecute cache ctx now o = ({ entry.result with cached := true }, cache, false)
    ∧ ∀ (c0 : TestCache) (t1 t2 : Int) (o1 o2 : FetchOutcome),
        (apiTestExecute c0 ctx t1 o1).2.2 = true → t2 - t1 < ctx.cacheTTL →
        apiTestExecute (apiTestExecute c0 ctx t1 o1).2.1 ctx t2 o2 =
          ({ (apiTestExecute c0 ctx t1 o1).1 with cached := true },
            (apiTestExecute c0 ctx t1 o1).2.1, false) := by
  constructor
  · exact apiTestExecute_fresh_hit cache ctx now o entry hentry hfresh
  · intro c0 t1 t2 o1 o2 hnet hf
    exact apiTest_sequential_hit c0 ctx ctx t1 t2 o1 o2 rfl hnet hf

/-- Concrete request used by the C3 witness. -/
def ctxC3 : TestContext :=
  { url := "http://svc.test/ok", method := Method.GET, headers := Option.none,
    body := Option.none, expectations := Option.none, cacheTTL := 300000, timeout := 10000 }

/-- Concrete stored result used by the C3 witness. -/
def resultC3 : TestResult :=
  { testStatus := TestStatus.PASS, cached := false, timestamp := 1000,
    request := { method := Method.GET, url := "http://svc.test/ok", headers := Option.none },
    response := Option.none, validations := Option.none,
    totalChecks := 1, passedChecks := 1, failedChecks := 0, error := Option.none }

/-- Concrete cache entry used by the C3 witness. -/
def entryC3 : CacheEntry :=
  { status := TestStatus.PASS, timestamp := 1000, responseTime := 5, result := resultC3 }

/-- C3 witness: a stored entry aged 500 ms against a 300 000 ms TTL. -/
theorem apiTest_cache_hit_no_network_witness :
    (TestCache.set TestCache.empty (cacheKey ctxC3) entryC3) (cacheKey ctxC3) = some entryC3
    ∧ ((1500 : Int) - entryC3.timestamp < ctxC3.cacheTTL)
    ∧ apiTestExecute (TestCache.set TestCache.empty (cacheKey ctxC3) entryC3) ctxC3 1500 (FetchOutcome.failure "unreachable")
        = ({ entryC3.result with cached := true }, TestCache.set TestCache.empty (cacheKey ctxC3) entryC3, false) := by
  refine ⟨by simp [TestCache.set], by decide, ?_⟩
  exact (apiTest_cache_hit_no_network (TestCache.set TestCache.empty (cacheKey ctxC3) entryC3)
    ctxC3 1500 (FetchOutcome.failure "unreachable") entryC3 (by simp [TestCache.set]) (by decide)).1

/-- C5: a network error, timeout or other exception before a response is
obtained yields FAIL with totalChecks 1, passedChecks 0, the error message
recorded, and the failure result is cached under the request's key exactly
as a success would be. -/
theorem apiTest_error_result_cached (cache : TestCache) (ctx : TestContext) (now : Int)
    (msg : String) (hmiss : isTestCacheHit cache ctx now = false) (hmsg : msg ≠ "") :
    (apiTestExecute cache ctx now (FetchOutcome.failure msg)).1.testStatus = TestStatus.FAIL
    ∧ (apiTestExecute cache ctx now (FetchOutcome.failure msg)).1.totalChecks = 1
    ∧ (apiTestExecute cache ctx now (FetchOutcome.failure msg)).1.passedChecks = 0
    ∧ (apiTestExecute cache ctx now (FetchOutcome.failure msg)).1.error = some msg ∧ msg ≠ ""
    ∧ (apiTestExecute cache ctx now (FetchOutcome.failure msg)).2.1 (cacheKey ctx)
        = some ({ status := TestStatus.FAIL, timestamp := now, responseTime := 0,
                  result := (apiTestExecute cache ctx now (FetchOutcome.failure msg)).1 } : CacheEntry)
    ∧ (apiTestExecute cache ctx now (FetchOutcome.failure msg)).2.2 = true := by
  rw [apiTestExecute_miss_eq cache ctx now (FetchOutcome.failure msg) hmiss]
  refine ⟨rfl, rfl, rfl, rfl, hmsg, ?_, rfl⟩
  simp [apiTestMiss, TestCache.set]

/-- Concrete request used by the C5 witness. -/
def ctxC5 : TestContext :=
  { url := "http://unreachable.test/x", method := Method.POST, headers := Option.none,
    body := some "{}", expectations := Option.none, cacheTTL := 300000, timeout := 10000 }

/-- C5 witness: an empty cache and a non-empty error message. -/
theorem apiTest_error_result_cached_witness :
    isTestCacheHit TestCache.empty ctxC5 1000 = false
    ∧ (apiTestExecute TestCache.empty ctxC5 1000 (FetchOutcome.failure "fetch failed")).1.testStatus
        = TestStatus.FAIL := by
  refine ⟨by decide, ?_⟩
  exact (apiTest_error_result_cached TestCache.empty ctxC5 1000 "fetch failed"
    (by decide) (by decide)).1

/-- C9: the cache key is built only from method, url and serialized body,
so two requests differing only in headers or expectations share the key,
and within the TTL window the second returns the first's cached result. -/
theorem apiTest_cacheKey_ignores_headers (ctx1 ctx2 : TestContext)
    (hm : ctx1.method = ctx2.method) (hu : ctx1.url = ctx2.url) (hb : ctx1.body = ctx2.body) :
    cacheKey ctx1 = cacheKey ctx2
    ∧ ∀ (cache : TestCache) (t1 t2 : Int) (o1 o2 : FetchOutcome),
        (apiTestExecute cache ctx1 t1 o1).2.2 = true → t2 - t1 < ctx2.cacheTTL →
        apiTestExecute (apiTestExecute cache ctx1 t1 o1).2.1 ctx2 t2 o2 =
          ({ (apiTestExecute cache ctx1 t1 o1).1 with cached := true },
            (apiTestExecute cache ctx1 t1 o1).2.1, false) := by
  have hkey : cacheKey ctx1 = cacheKey ctx2 := by
    rw [cacheKey, cacheKey, hm, hu, hb]
  refine ⟨hkey, ?_⟩
  intro cache t1 t2 o1 o2 hnet hfresh
  exact apiTest_sequential_hit cache ctx1 ctx2 t1 t2 o1 o2 hkey.symm hnet hfresh

/-- C9 witness: same method/url/body, different headers and expectations. -/
theorem apiTest_cacheKey_ignores_headers_witness :
    cacheKey { url := "http://svc.test/a", method := Method.GET,
               headers := some [("authorization", "Bearer t1")], body := Option.none,
               expectations := Option.none, cacheTTL := 300000, timeout := 10000 }
      = cacheKey { url := "http://svc.test/a", method := Method.GET, headers := Option.none,
                   body := Option.none,
                   expectations := some { Expectations.none with statusCode := some 200 },
                   cacheTTL := 60000, timeout := 5000 } := by
  exact (apiTest_cacheKey_ignores_headers
    { url := "http://svc.test/a", method := Method.GET,
      headers := some [("authorization", "Bearer t1")], body := Option.none,
      expectations := Option.none, cacheTTL := 300000, timeout := 10000 }
    { url := "http://svc.test/a", method := Method.GET, headers := Option.none,
      body := Option.none,
      expectations := some { Expectations.none with statusCode := some 200 },
      cacheTTL := 60000, timeout := 5000 } rfl rfl rfl).1

/-! ### Health-check state machine -/

/-- C1 counterexample: with an empty cache (prior status null), a
first-ever observation that errors reports `statusChanged = true`,
because the catch branch computes `healthCache.status !== 'DOWN'`. -/
theorem healthCheck_first_error_reports_change :
    HealthCache.empty.status = Option.none
    ∧ (healthCheckExecute HealthCache.empty "http://svc.test/health" 300000 1000
        (HealthFetchOutcome.failure "fetch failed")).1.statusChanged = some true := by
  exact ⟨rfl, by decide⟩

/-- C1 amended: on the cache-miss success path, statusChanged is true iff
the prior status was non-null and differs from the new status; on the
error path, statusChanged is true iff the prior status was not DOWN — so a
first-ever observation that errors does report a change. -/
theorem healthCheck_statusChanged_rule (cache : HealthCache) (url : String) (ttl now : Int)
    (hmiss : isHealthCacheHit cache ttl now = false) :
    (∀ s : Nat,
      ((healthCheckExecute cache url ttl now (HealthFetchOutcome.success s)).1.statusChanged
          = some true
        ↔ ∃ prev, cache.status = some prev
            ∧ prev ≠ (if respOk s then HealthStatus.UP else HealthStatus.DOWN)))
    ∧ (∀ m : String,
      ((healthCheckExecute cache url ttl now (HealthFetchOutcome.failure m)).1.statusChanged
          = some true
        ↔ cache.status ≠ some HealthStatus.DOWN)) := by
  constructor
  · intro s
    simp only [healthCheckExecute, hmiss, Bool.false_eq_true, if_false]
    cases hst : cache.status with
    | none => simp
    | some prev => simp [bne_iff_ne]
  · intro m
    simp only [healthCheckExecute, hmiss, Bool.false_eq_true, if_false]
    simp [bne_iff_ne]

/-- C1 amended witness: the error path on the empty cache. -/
theorem healthCheck_statusChanged_rule_witness :
    isHealthCacheHit HealthCache.empty 300000 1000 = false
    ∧ ((healthCheckExecute HealthCache.empty "http://svc.test/health" 300000 1000
          (HealthFetchOutcome.failure "boom")).1.statusChanged = some true
        ↔ HealthCache.empty.status ≠ some HealthStatus.DOWN) := by
  refine ⟨by decide, ?_⟩
  exact (healthCheck_statusChanged_rule HealthCache.empty "http://svc.test/health" 300000 1000
    (by decide)).2 "boom"

/-- C4 counterexample: a fresh cached UP status produced by checking one
URL is returned, as a cached result with no network call, for a check of a
different URL (the health cache is one global cell, not keyed by URL). -/
theorem healthCheck_cross_url_cached :
    ((healthCheckExecute
        (healthCheckExecute HealthCache.empty "http://a.test" 300000 1000
          (HealthFetchOutcome.success 200)).2.1
        "http://b.test" 300000 2000 (HealthFetchOutcome.success 500)).1.cached = true)
    ∧ ((healthCheckExecute
        (healthCheckExecute HealthCache.empty "http://a.test" 300000 1000
          (HealthFetchOutcome.success 200)).2.1
        "http://b.test" 300000 2000 (HealthFetchOutcome.success 500)).1.status = HealthStatus.UP)
    ∧ ((healthCheckExecute
        (healthCheckExecute HealthCache.empty "http://a.test" 300000 1000
          (HealthFetchOutcome.success 200)).2.1
        "http://b.test" 300000 2000 (HealthFetchOutcome.success 500)).2.2 = false) := by
  decide

/-- C4 amended: the health cache is a single process-wide cell not keyed
by URL — while the cell is fresh, a check of any target URL returns the
same cached result with no network call, regardless of the URL checked. -/
theorem healthCheck_cache_not_keyed_by_url (cache : HealthCache) (ttl now : Int)
    (hhit : isHealthCacheHit cache ttl now = true) (url1 url2 : String)
    (o1 o2 : HealthFetchOutcome) :
    healthCheckExecute cache url1 ttl now o1 = healthCheckExecute cache url2 ttl now o2
    ∧ (healthCheckExecute cache url1 ttl now o1).1.cached = true
    ∧ (healthCheckExecute cache url1 ttl now o1).2.2 = false := by
  simp [healthCheckExecute, hhit]

/-- C4 amended witness: a fresh UP cell read for two different URLs. -/
theorem healthCheck_cache_not_keyed_by_url_witness :
    isHealthCacheHit
        { status := some HealthStatus.UP, timestamp := some 1000, lastError := Option.none }
        300000 1500 = true
    ∧ healthCheckExecute
        { status := some HealthStatus.UP, timestamp := some 1000, lastError := Option.none }
        "http://a.test" 300000 1500 (HealthFetchOutcome.success 200)
      = healthCheckExecute
          { status := some HealthStatus.UP, timestamp := some 1000, lastError := Option.none }
          "http://b.test" 300000 1500 (HealthFetchOutcome.failure "x") := by
  refine ⟨by decide, ?_⟩
  exact (healthCheck_cache_not_keyed_by_url
    { status := some HealthStatus.UP, timestamp := some 1000, lastError := Option.none }
    300000 1500 (by decide) "http://a.test" "http://b.test"
    (HealthFetchOutcome.success 200) (HealthFetchOutcome.failure "x")).1

/-! ### TTL is a property of the read, not of the entry -/

/-- C10: cache entries store only their write timestamp; freshness is
decided at read time against the cacheTTL supplied by the current call.
The same test-cache entry (and the same health cell) at the same moment is
served from cache for a caller passing a large enough TTL and refreshed
over the network for a caller passing a small one. -/
theorem ttl_decided_at_read_time (cache : TestCache) (ctx : TestContext) (now : Int)
    (entry : CacheEntry) (ttlBig ttlSmall : Int) (o : FetchOutcome)
    (hentry : cache (cacheKey ctx) = some entry)
    (hB : now - entry.timestamp < ttlBig) (hS : ¬ (now - entry.timestamp < ttlSmall))
    (hcache : HealthCache) (hts : Int) (st : HealthStatus)
    (hnow httlBig httlSmall : Int)
    (hhts : hcache.timestamp = some hts) (hts0 : hts ≠ 0) (hst : hcache.status = some st)
    (hhB : hnow - hts < httlBig) (hhS : ¬ (hnow - hts < httlSmall))
    (url : String) (ho : HealthFetchOutcome) :
    ((apiTestExecute cache { ctx with cacheTTL := ttlBig } now o).2.2 = false)
    ∧ ((apiTestExecute cache { ctx with cacheTTL := ttlSmall } now o).2.2 = true)
    ∧ ((healthCheckExecute hcache url httlBig hnow ho).2.2 = false)
    ∧ ((healthCheckExecute hcache url httlSmall hnow ho).2.2 = true) := by
  have hkB : cacheKey { ctx with cacheTTL := ttlBig } = cacheKey ctx := rfl
  have hkS : cacheKey { ctx with cacheTTL := ttlSmall } = cacheKey ctx := rfl
  refine ⟨?_, ?_, ?_, ?_⟩
  · rw [apiTestExecute_fresh_hit cache { ctx with cacheTTL := ttlBig } now o entry
      (hkB ▸ hentry) hB]
  · have hmiss : isTestCacheHit cache { ctx with cacheTTL := ttlSmall } now = false := by
      rw [isTestCacheHit, hkS, hentry]
      simp [hS]
    rw [apiTestExecute_miss_eq cache { ctx with cacheTTL := ttlSmall } now o hmiss]
    exact apiTestMiss_network cache { ctx with cacheTTL := ttlSmall } now o
  · have hhit : isHealthCacheHit hcache httlBig hnow = true := by
      rw [isHealthCacheHit]
      rw [hhts, hst]
      simp [hts0, hhB]
    simp [healthCheckExecute, hhit]
  · have hmiss : isHealthCacheHit hcache httlSmall hnow = false := by
      rw [isHealthCacheHit]
      rw [hhts, hst]
      simp [hhS]
    cases ho <;> simp [healthCheckExecute, hmiss]

/-- Concrete request used by the C10 witness. -/
def ctxC10 : TestContext :=
  { url := "http://svc.test/ok", method := Method.GET, headers := Option.none,
    body := Option.none, expectations := Option.none, cacheTTL := 300000, timeout := 10000 }

/-- Concrete cache entry used by the C10 witness (written at t = 1000). -/
def entryC10 : CacheEntry :=
  { status := TestStatus.PASS, timestamp := 1000, responseTime := 5,
    result := { testStatus := TestStatus.PASS, cached := false, timestamp := 1000,
                request := { method := Method.GET, url := "http://svc.test/ok", headers := Option.none },
                response := Option.none, validations := Option.none,
                totalChecks := 1, passedChecks := 1, failedChecks := 0, error := Option.none } }

/-- C10 witness: age 200 ms, TTLs 300 000 ms vs 100 ms, for both caches. -/
theorem ttl_decided_at_read_time_witness :
    (TestCache.set TestCache.empty (cacheKey ctxC10) entryC10) (cacheKey ctxC10) = some entryC10
    ∧ ((apiTestExecute (TestCache.set TestCache.empty (cacheKey ctxC10) entryC10)
          { ctxC10 with cacheTTL := 300000 } 1200 (FetchOutcome.failure "x")).2.2 = false)
    ∧ ((apiTestExecute (TestCache.set TestCache.empty (cacheKey ctxC10) entryC10)
          { ctxC10 with cacheTTL := 100 } 1200 (FetchOutcome.failure "x")).2.2 = true)
    ∧ ((healthCheckExecute
          { status := some HealthStatus.UP, timestamp := some 1000, lastError := Option.none }
          "http://svc.test/ok" 300000 1200 (HealthFetchOutcome.success 200)).2.2 = false)
    ∧ ((healthCheckExecute
          { status := some HealthStatus.UP, timestamp := some 1000, lastError := Option.none }
          "http://svc.test/ok" 100 1200 (HealthFetchOutcome.success 200)).2.2 = true) := by
  refine ⟨by simp [TestCache.set], ?_⟩
  exact ttl_decided_at_read_time (TestCache.set TestCache.empty (cacheKey ctxC10) entryC10)
    ctxC10 1200 entryC10 300000 100 (FetchOutcome.failure "x") (by simp [TestCache.set])
    (by decide) (by decide)
    { status := some HealthStatus.UP, timestamp := some 1000, lastError := Option.none }
    1000 HealthStatus.UP 1200 300000 100 rfl (by decide) rfl (by decide) (by decide)
    "http://svc.test/ok" (HealthFetchOutcome.success 200)

/-! ### The A2A submission handler -/

/-- C8: an inbound submission missing (or carrying an empty) callback url,
callback token, or instruction text `params.message.parts[0].text` is
answered synchronously with the structured error body
`{status:"error", status_code:500, message, data:{details}}`, and the
handler neither starts the background work nor can therefore ever attempt
a callback push for it. -/
theorem telexA2A_invalid_submission (b : A2ABody) (freshUuid : String)
    (h : truthyOpt (webhookUrlOf b) = false ∨ truthyOpt (webhookTokenOf b) = false
         ∨ truthyOpt (mainPromptOf b) = false) :
    (telexA2AHandle b freshUuid).1.status = "error"
    ∧ (telexA2AHandle b freshUuid).1.statusCode = 500
    ∧ (telexA2AHandle b freshUuid).1.httpStatus = 500
    ∧ ((telexA2AHandle b freshUuid).1.details).isSome = true
    ∧ (telexA2AHandle b freshUuid).2 = false := by
  by_cases h1 : (!truthyOpt (webhookUrlOf b) || !truthyOpt (webhookTokenOf b)) = true
  · rw [telexA2AHandle, if_pos h1]
    exact ⟨rfl, rfl, rfl, rfl, rfl⟩
  · have h1' := h1
    simp only [Bool.or_eq_true, Bool.not_eq_true', not_or] at h1'
    have hp : truthyOpt (mainPromptOf b) = false := by
      rcases h with hu | ht | hp
      · exact absurd hu (by simp [h1'.1])
      · exact absurd ht (by simp [h1'.2])
      · exact hp
    rw [telexA2AHandle, if_neg h1, if_pos (by simp [hp])]
    exact ⟨rfl, rfl, rfl, rfl, rfl⟩

/-- C8 witness: a submission with no `params` at all (hence no callback
configuration). -/
theorem telexA2A_invalid_submission_witness :
    truthyOpt (webhookUrlOf
      { jsonrpc := some "2.0", id := some "req-1", method := some "message/send",
        params := Option.none }) = false
    ∧ (telexA2AHandle
        { jsonrpc := some "2.0", id := some "req-1", method := some "message/send",
          params := Option.none } "uuid-0").1.status = "error"
    ∧ (telexA2AHandle
        { jsonrpc := some "2.0", id := some "req-1", method := some "message/send",
          params := Option.none } "uuid-0").2 = false := by
  refine ⟨by decide, ?_, ?_⟩
  · exact (telexA2A_invalid_submission
      { jsonrpc := some "2.0", id := some "req-1", method := some "message/send",
        params := Option.none } "uuid-0" (Or.inl (by decide))).1
  · exact (telexA2A_invalid_submission
      { jsonrpc := some "2.0", id := some "req-1", method := some "message/send",
        params := Option.none } "uuid-0" (Or.inl (by decide))).2.2.2.2

end ServicePulse
